import Mathlib

/-!
# Verification of the GGEMS OpenCL resource manager

Shallow embedding of the context / RAM-ledger / kernel-compilation logic of
`src/src/global/opencl_manager.cc` together with `GetGlobalContextID` from
`src/include/GGEMS/global/ggems_manager.hh`, and proofs about it.

Modelling conventions:
* `cl_ulong` / `std::size_t` values are natural numbers; every arithmetic
  operation on the RAM ledger is reduced modulo `2 ^ 64` exactly where the
  C++ unsigned 64-bit arithmetic wraps.
* A `cl::Context*` is modelled by a `Ctx` record carrying its pointer value
  (`addr`, the result of `new`) and the index of the device it binds.
  Pointer comparison compares `addr`.
* Fallible operations return an `Outcome`: `ok` with the new manager state,
  `thrown` with the raised error and the manager state at the moment of the
  throw (side effects performed before the throw persist), or `undefinedBehavior` when
  the C++ executes an operation with no defined behaviour
  (`std::vector::front` on an empty vector, out-of-bounds raw-array write).
* Backend (OpenCL driver) results are passed in as explicit status-code
  parameters, since the driver is an external collaborator.
-/

namespace GGEMS

/-- `CL_SUCCESS` of the OpenCL headers. -/
def CL_SUCCESS : Int := 0

/-- `CL_DEVICE_TYPE_CPU` of the OpenCL headers (`1 << 1`). -/
def CL_DEVICE_TYPE_CPU : Nat := 2

/-- `CL_DEVICE_TYPE_GPU` of the OpenCL headers (`1 << 2`). -/
def CL_DEVICE_TYPE_GPU : Nat := 4

/-- `CL_DEVICE_TYPE_ACCELERATOR` of the OpenCL headers (`1 << 3`).
Devices of this type are returned by device discovery
(`getDevices(CL_DEVICE_TYPE_ALL, ...)`, opencl_manager.cc line 109). -/
def CL_DEVICE_TYPE_ACCELERATOR : Nat := 8

/-- `2 ^ 64`: the modulus of `cl_ulong` (and of 64-bit `std::size_t`)
arithmetic. -/
def clULongMod : Nat := 2 ^ 64

/-- A `cl::Context*`: pointer value plus the index of the single device the
context was constructed from (`new cl::Context(*vp_devices_cl_[i])`). -/
structure Ctx where
  addr : Nat
  device : Nat
deriving DecidableEq, Repr

/-- A compiled kernel as retained in `vp_kernel_cl_`: source text, entry
point name, and the compilation options that were passed to the build. -/
structure KernelRec where
  source_code : String
  kernel_name : String
  options : String
deriving DecidableEq, Repr

/-- The raised errors, one constructor per throw site of the embedded code:
`configError` for the `Misc::ThrowException` calls guarding preconditions,
`fileError` for `Stream::CheckInputStream` (the spec's IOError),
`buildError` for the kernel-build failure path (status plus build log),
`clError` for `CheckOpenCLError` (`throw std::runtime_error(ErrorType(e))`),
and `atOutOfRange` for `std::vector::at` on a bad index. -/
inductive GGEMSError where
  | configError (msg : String)
  | fileError (filename : String)
  | buildError (status : Int) (log : String)
  | clError (status : Int)
  | atOutOfRange
deriving DecidableEq, Repr

/-- The manager state: the fields of `OpenCLManager` the embedded operations
touch, under their C++ names.  `p_device_device_type_` is the capability
table filled at discovery; `vp_contexts_cl_` / `vp_contexts_cpu_cl_` /
`vp_contexts_gpu_cl_` the global context list and its CPU/GPU subsets;
`vp_contexts_act_cl_` the activated-context vector; `p_used_ram_` the RAM
ledger (one `cl_ulong` cell per context); `build_options_` the default
build options; `vp_kernel_cl_` the kernel registry.  `next_addr` is the
model's allocator: each `new` returns `next_addr` and bumps it, so distinct
allocations have distinct pointer values. -/
structure OpenCLManager where
  p_device_device_type_ : List Nat
  vp_contexts_cl_ : List Ctx
  vp_contexts_cpu_cl_ : List Ctx
  vp_contexts_gpu_cl_ : List Ctx
  vp_contexts_act_cl_ : List Ctx
  p_used_ram_ : List Nat
  build_options_ : String
  vp_kernel_cl_ : List KernelRec
  next_addr : Nat
deriving DecidableEq, Repr

/-- Result of a manager operation.  `thrown` carries the manager state at
the moment the exception left the function (mutations performed earlier in
the same call persist); `undefinedBehavior` marks C++ undefined behaviour. -/
inductive Outcome (α : Type) where
  | ok (val : α)
  | thrown (err : GGEMSError) (state : OpenCLManager)
  | undefinedBehavior
deriving DecidableEq, Repr

/-- `true` iff the outcome is a normal return. -/
def Outcome.isOk {α : Type} : Outcome α → Bool
  | .ok _ => true
  | _ => false

/-- The loop body of `GetGlobalContextID` (ggems_manager.hh lines 521-528):
`context_id` starts at `0`; the first list element whose pointer equals
`p_context` sets it and breaks; if none matches it stays `0`. -/
def ctxFindLoop (p_context : Ctx) : List Ctx → Nat → Nat
  | [], _ => 0
  | c :: rest, i => if c.addr = p_context.addr then i else ctxFindLoop p_context rest (i + 1)

/-- `OpenCLManager::GetGlobalContextID` (ggems_manager.hh lines 519-530):
linear scan of `vp_contexts_cl_` by pointer equality, defaulting to `0`. -/
def GetGlobalContextID (m : OpenCLManager) (p_context : Ctx) : Nat :=
  ctxFindLoop p_context m.vp_contexts_cl_ 0

/-- One iteration of the `CreateContextCPUGPU` loop (opencl_manager.cc lines
714-725) for device `i` of recorded type `t`: a GPU device appends a fresh
context to the global list and the GPU subset, a CPU device to the global
list and the CPU subset; any other device type creates nothing. -/
def createCtxStep (m : OpenCLManager) (t : Nat) (i : Nat) : OpenCLManager :=
  let m1 :=
    if t = CL_DEVICE_TYPE_GPU then
      { m with
        vp_contexts_cl_ := m.vp_contexts_cl_ ++ [⟨m.next_addr, i⟩],
        vp_contexts_gpu_cl_ := m.vp_contexts_gpu_cl_ ++ [⟨m.next_addr, i⟩],
        next_addr := m.next_addr + 1 }
    else m
  if t = CL_DEVICE_TYPE_CPU then
    { m1 with
      vp_contexts_cl_ := m1.vp_contexts_cl_ ++ [⟨m1.next_addr, i⟩],
      vp_contexts_cpu_cl_ := m1.vp_contexts_cpu_cl_ ++ [⟨m1.next_addr, i⟩],
      next_addr := m1.next_addr + 1 }
  else m1

/-- The `CreateContextCPUGPU` loop over the remaining device types, `i`
being the index of the first device of `types`. -/
def createCtxLoop : List Nat → Nat → OpenCLManager → OpenCLManager
  | [], _, m => m
  | t :: rest, i, m => createCtxLoop rest (i + 1) (createCtxStep m t i)

/-- `OpenCLManager::CreateContextCPUGPU` (opencl_manager.cc lines 708-726):
loop over all discovered devices, dispatching on the device type recorded
at discovery (`GetDeviceType(i)` reads `p_device_device_type_[i]`). -/
def CreateContextCPUGPU (m : OpenCLManager) : OpenCLManager :=
  createCtxLoop m.p_device_device_type_ 0 m

/-- `OpenCLManager::ContextToActivate` (opencl_manager.cc lines 732-743):
throws via `Misc::ThrowException` if `vp_contexts_act_cl_` is non-empty,
otherwise pushes `vp_contexts_cl_.at(context_id)` (where `at` throws
`std::out_of_range` on a bad index). -/
def ContextToActivate (m : OpenCLManager) (context_id : Nat) : Outcome OpenCLManager :=
  if !m.vp_contexts_act_cl_.isEmpty then
    .thrown (.configError "A context has already been activated!!!") m
  else
    match m.vp_contexts_cl_.get? context_id with
    | none => .thrown .atOutOfRange m
    | some c => .ok { m with vp_contexts_act_cl_ := m.vp_contexts_act_cl_ ++ [c] }

/-- `OpenCLManager::AddRAMMemory` (opencl_manager.cc lines 990-998):
`p_used_ram_[GetGlobalContextID(vp_contexts_act_cl_.front())] += size`.
`front()` on an empty vector and an out-of-bounds raw-array write are both
C++ undefined behaviour, hence `undefinedBehavior`. -/
def AddRAMMemory (m : OpenCLManager) (size : Nat) : Outcome OpenCLManager :=
  match m.vp_contexts_act_cl_.head? with
  | none => .undefinedBehavior
  | some front =>
    let kContextGlobalID := GetGlobalContextID m front
    if h : kContextGlobalID < m.p_used_ram_.length then
      .ok { m with
        p_used_ram_ := m.p_used_ram_.set kContextGlobalID
          ((m.p_used_ram_.get ⟨kContextGlobalID, h⟩ + size) % clULongMod) }
    else .undefinedBehavior

/-- `OpenCLManager::SubRAMMemory` (opencl_manager.cc lines 1004-1012):
`p_used_ram_[GetGlobalContextID(vp_contexts_act_cl_.front())] -= size`,
with `cl_ulong` subtraction wrapping modulo `2 ^ 64`. -/
def SubRAMMemory (m : OpenCLManager) (size : Nat) : Outcome OpenCLManager :=
  match m.vp_contexts_act_cl_.head? with
  | none => .undefinedBehavior
  | some front =>
    let kContextGlobalID := GetGlobalContextID m front
    if h : kContextGlobalID < m.p_used_ram_.length then
      .ok { m with
        p_used_ram_ := m.p_used_ram_.set kContextGlobalID
          ((m.p_used_ram_.get ⟨kContextGlobalID, h⟩ + (clULongMod - size % clULongMod)) % clULongMod) }
    else .undefinedBehavior

/-- `OpenCLManager::Allocate` (opencl_manager.cc lines 1108-1117):
`new cl::Buffer(*vp_contexts_act_cl_.front(), flags, size, p_host_ptr,
&error)`, then `CheckOpenCLError(error)`, then `AddRAMMemory(size)`, then
return the buffer.  `alloc_status` is the backend's `error` out-parameter;
the returned `Nat` is the buffer pointer.  `front()` on the empty
activated-context vector is undefined behaviour and happens before any
backend call. -/
def Allocate (m : OpenCLManager) (p_host_ptr : Option Nat) (size : Nat)
    (flags : Nat) (alloc_status : Int) : Outcome (OpenCLManager × Nat) :=
  match m.vp_contexts_act_cl_.head? with
  | none => .undefinedBehavior
  | some _ =>
    let p_buffer := m.next_addr
    let m1 := { m with next_addr := m.next_addr + 1 }
    if alloc_status ≠ CL_SUCCESS then .thrown (.clError alloc_status) m1
    else
      match AddRAMMemory m1 size with
      | .ok m2 => .ok (m2, p_buffer)
      | .thrown e s => .thrown e s
      | .undefinedBehavior => .undefinedBehavior

/-- `OpenCLManager::Deallocate` (opencl_manager.cc lines 1123-1128):
`SubRAMMemory(size); delete p_buffer;` — the buffer pointer is freed but
the ledger change is the only manager-state effect. -/
def Deallocate (m : OpenCLManager) (p_buffer : Nat) (size : Nat) : Outcome OpenCLManager :=
  SubRAMMemory m size

/-- Observable interactions of `CompileKernel` with the outside world:
opening the kernel source file, and submitting a build to the backend with
the resolved option string. -/
inductive Effect where
  | fileOpen (filename : String)
  | backendBuild (options : String)
deriving DecidableEq, Repr

/-- `OpenCLManager::CompileKernel` (opencl_manager.cc lines 874-947).
`fs` maps a path to the file's content when the file can be opened.
`getinfo_status` is the status of the `getInfo(CL_CONTEXT_DEVICES)` call,
`build_status` / `build_log` the result of `program.build`, and
`kernel_status` the status of the `cl::Kernel` constructor.  The second
component records, in order, the external effects performed.

Modelled from the spec: the bodies of `Misc::ThrowException` ("every error
aborts the current operation immediately", spec section 7) and
`Stream::CheckInputStream` ("fails with an I/O error if `sourcePath`
cannot be opened", spec section 4.4) are not under src/; they are embedded
as returning `thrown` with, respectively, a `configError` and a
`fileError`.

Order of the steps, as in the source: mutual-exclusion check on the two
option strings; `std::ifstream` open plus `CheckInputStream`; option
resolution into the fixed stack buffer `char kernel_compilation_option[512]`
by unchecked `strcpy`/`strcat`; `vp_contexts_act_cl_.at(0)` (throws
`std::out_of_range` when no context is activated); `getInfo` on the active
context; `program.build`; push of the new kernel onto `vp_kernel_cl_`
followed by the status check of the kernel constructor.

The buffer writes: whenever the resolved option string together with its
terminating NUL exceeds the 512 bytes of the buffer, some `strcpy`/`strcat`
write runs past the end of the array — an out-of-bounds raw-array write,
hence `undefinedBehavior` (in each branch the last write overflows exactly
when the full resolved string does, and any intermediate overflow implies
it, so the single byte-size test is equivalent to checking every write).
The overflow happens after the file open and before the `at(0)` access and
any backend call. -/
def CompileKernel (m : OpenCLManager) (fs : String → Option String)
    (kernel_filename : String) (kernel_name : String)
    (p_custom_options : Option String) (p_additional_options : Option String)
    (getinfo_status : Int) (build_status : Int) (build_log : String)
    (kernel_status : Int) : Outcome (OpenCLManager × KernelRec) × List Effect :=
  if p_custom_options.isSome && p_additional_options.isSome then
    (.thrown (.configError "Custom and additional options can not by set in same time!!!") m, [])
  else
    match fs kernel_filename with
    | none => (.thrown (.fileError kernel_filename) m, [.fileOpen kernel_filename])
    | some source_code =>
      let kernel_compilation_option :=
        match p_custom_options with
        | some co => co
        | none =>
          match p_additional_options with
          | some ao => m.build_options_ ++ " " ++ ao
          | none => m.build_options_
      if kernel_compilation_option.utf8ByteSize + 1 > 512 then
        (.undefinedBehavior, [.fileOpen kernel_filename])
      else
        match m.vp_contexts_act_cl_.head? with
        | none => (.thrown .atOutOfRange m, [.fileOpen kernel_filename])
        | some _ =>
          if getinfo_status ≠ CL_SUCCESS then
            (.thrown (.clError getinfo_status) m, [.fileOpen kernel_filename])
          else if build_status ≠ CL_SUCCESS then
            (.thrown (.buildError build_status build_log) m,
              [.fileOpen kernel_filename, .backendBuild kernel_compilation_option])
          else
            let k : KernelRec := ⟨source_code, kernel_name, kernel_compilation_option⟩
            let m1 := { m with vp_kernel_cl_ := m.vp_kernel_cl_ ++ [k] }
            if kernel_status ≠ CL_SUCCESS then
              (.thrown (.clError kernel_status) m1,
                [.fileOpen kernel_filename, .backendBuild kernel_compilation_option])
            else
              (.ok (m1, k),
                [.fileOpen kernel_filename, .backendBuild kernel_compilation_option])

/-- Number of contexts in `l` that reference (were constructed from)
device `d`. -/
def countDev (l : List Ctx) (d : Nat) : Nat :=
  l.countP (fun c => c.device == d)

/-- The ledger of a successful `Allocate`, `none` on any other outcome. -/
def allocLedger (o : Outcome (OpenCLManager × Nat)) : Option (List Nat) :=
  match o with
  | .ok (m, _) => some m.p_used_ram_
  | _ => none

/-- A context bound to device `0`, at pointer value `100`. -/
def ctxA : Ctx := ⟨100, 0⟩

/-- A manager discovered over one GPU device, just after initialization:
one context, no activated context, ledger zeroed. -/
def mgrInit : OpenCLManager :=
  { p_device_device_type_ := [CL_DEVICE_TYPE_GPU]
    vp_contexts_cl_ := [ctxA]
    vp_contexts_cpu_cl_ := []
    vp_contexts_gpu_cl_ := [ctxA]
    vp_contexts_act_cl_ := []
    p_used_ram_ := [0]
    build_options_ := "-cl-std=CL1.2 -cl-kernel-arg-info -w -Werror"
    vp_kernel_cl_ := []
    next_addr := 101 }

/-- `mgrInit` after a successful activation of context `0`. -/
def mgrAct : OpenCLManager :=
  { mgrInit with vp_contexts_act_cl_ := [ctxA] }

/-- `mgrAct` with its single ledger cell at the largest `cl_ulong` value. -/
def mgrFull : OpenCLManager :=
  { mgrAct with p_used_ram_ := [clULongMod - 1] }

/-- A manager state at discovery time whose single device is an OpenCL
accelerator (neither CPU nor GPU), before context creation. -/
def mgrAccelDiscovery : OpenCLManager :=
  { p_device_device_type_ := [CL_DEVICE_TYPE_ACCELERATOR]
    vp_contexts_cl_ := []
    vp_contexts_cpu_cl_ := []
    vp_contexts_gpu_cl_ := []
    vp_contexts_act_cl_ := []
    p_used_ram_ := []
    build_options_ := ""
    vp_kernel_cl_ := []
    next_addr := 0 }

/-- A manager state at discovery time over one GPU and one CPU device,
before context creation. -/
def mgrTwoDevDiscovery : OpenCLManager :=
  { p_device_device_type_ := [CL_DEVICE_TYPE_GPU, CL_DEVICE_TYPE_CPU]
    vp_contexts_cl_ := []
    vp_contexts_cpu_cl_ := []
    vp_contexts_gpu_cl_ := []
    vp_contexts_act_cl_ := []
    p_used_ram_ := []
    build_options_ := ""
    vp_kernel_cl_ := []
    next_addr := 0 }

/-- A custom option string of 512 ASCII bytes: together with the
terminating NUL it needs 513 bytes, one more than the source's fixed
`char kernel_compilation_option[512]` buffer holds. -/
def longCustomOption : String := String.mk (List.replicate 512 'a')

/-! ## Helper lemmas -/

theorem clULongMod_eq : clULongMod = 18446744073709551616 := by
  norm_num [clULongMod]

/-- If no element of the list has the pointer value of `p_context`, the
lookup loop falls through and leaves `context_id` at its initial `0`. -/
theorem ctxFindLoop_eq_zero (p_context : Ctx) (l : List Ctx)
    (habs : ∀ c ∈ l, c.addr ≠ p_context.addr) :
    ∀ i, ctxFindLoop p_context l i = 0 := by
  induction l with
  | nil => intro i; rfl
  | cons c rest ih =>
    intro i
    have hc : c.addr ≠ p_context.addr := habs c (by simp)
    have hrest : ∀ x ∈ rest, x.addr ≠ p_context.addr := fun x hx => habs x (by simp [hx])
    simp only [ctxFindLoop, if_neg hc]
    exact ih hrest (i + 1)

/-- `GetGlobalContextID` depends only on the global context list. -/
theorem getGlobalContextID_congr (mA mB : OpenCLManager) (p : Ctx)
    (h : mA.vp_contexts_cl_ = mB.vp_contexts_cl_) :
    GetGlobalContextID mA p = GetGlobalContextID mB p := by
  unfold GetGlobalContextID
  rw [h]

/-! ## C4: CompileKernel rejects mutually exclusive options -/

/-- C4: for every pair of non-null option strings and every source path
(valid or not), `CompileKernel` throws the mutual-exclusion
`Misc::ThrowException` (the spec's ConfigurationError) with an empty effect
trace: the error is decided before the source file is opened and before any
compilation is attempted, and the manager state is unchanged. -/
theorem compileKernel_both_options_config_error
    (m : OpenCLManager) (fs : String → Option String)
    (kernel_filename kernel_name co ao : String)
    (gs bs : Int) (log : String) (ks : Int) :
    CompileKernel m fs kernel_filename kernel_name (some co) (some ao) gs bs log ks =
      (.thrown (.configError "Custom and additional options can not by set in same time!!!") m,
        []) := by
  simp [CompileKernel]

/-! ## C5: CompileKernel rejects a missing source file -/

/-- C5: with at most one of the two option strings supplied, if the source
file cannot be opened then `CompileKernel` throws the
`Stream::CheckInputStream` error (the spec's IOError); the effect trace
records only the attempted file open, so no backend compilation is
attempted, and the manager state is unchanged. -/
theorem compileKernel_missing_file_io_error
    (m : OpenCLManager) (fs : String → Option String)
    (kernel_filename kernel_name : String)
    (p_custom_options p_additional_options : Option String)
    (gs bs : Int) (log : String) (ks : Int)
    (hopts : (p_custom_options.isSome && p_additional_options.isSome) = false)
    (hfile : fs kernel_filename = none) :
    CompileKernel m fs kernel_filename kernel_name p_custom_options p_additional_options
        gs bs log ks =
      (.thrown (.fileError kernel_filename) m, [.fileOpen kernel_filename]) := by
  simp [CompileKernel, hopts, hfile]

theorem compileKernel_missing_file_io_error_witness :
    CompileKernel mgrAct (fun _ => none) "kernel.cl" "my_kernel" none none 0 0 "" 0 =
      (.thrown (.fileError "kernel.cl") mgrAct, [.fileOpen "kernel.cl"]) :=
  compileKernel_missing_file_io_error mgrAct (fun _ => none) "kernel.cl" "my_kernel"
    none none 0 0 "" 0 rfl rfl

/-! ## C6: Allocate with no active context -/

/-- C6: calling `Allocate` while no context is activated does not raise a
defined error: the source dereferences `vp_contexts_act_cl_.front()` on an
empty `std::vector`, which is C++ undefined behaviour, before any backend
call or ledger access.  (`mgrInit` has an empty activated-context vector.) -/
theorem allocate_no_active_context_undef :
    Allocate mgrInit (some 0) 4096 1 CL_SUCCESS = Outcome.undefinedBehavior := rfl

/-! ## C9: backend allocation failure leaves the ledger unchanged -/

/-- C9: when the backend buffer-creation status is non-success, `Allocate`
throws through `CheckOpenCLError` before `AddRAMMemory` runs, so the RAM
ledger of the thrown-state equals the ledger before the call. -/
theorem allocate_backend_failure_ledger_unchanged
    (m : OpenCLManager) (p_host_ptr : Option Nat) (size flags : Nat) (alloc_status : Int)
    (hact : m.vp_contexts_act_cl_ ≠ []) (hstat : alloc_status ≠ CL_SUCCESS) :
    ∃ s, Allocate m p_host_ptr size flags alloc_status = .thrown (.clError alloc_status) s ∧
      s.p_used_ram_ = m.p_used_ram_ := by
  refine ⟨{ m with next_addr := m.next_addr + 1 }, ?_, rfl⟩
  cases hm : m.vp_contexts_act_cl_ with
  | nil => exact absurd hm hact
  | cons c rest => simp [Allocate, hm, hstat]

theorem allocate_backend_failure_ledger_unchanged_witness :
    ∃ s, Allocate mgrAct none 4096 1 (-4) = .thrown (.clError (-4)) s ∧
      s.p_used_ram_ = mgrAct.p_used_ram_ :=
  allocate_backend_failure_ledger_unchanged mgrAct none 4096 1 (-4)
    (by simp [mgrAct]) (by decide)

/-- Unfolding of `AddRAMMemory` when a context is active and the ledger
index is in bounds. -/
theorem addRAMMemory_eq (m : OpenCLManager) (c : Ctx) (rest : List Ctx) (size : Nat)
    (hact : m.vp_contexts_act_cl_ = c :: rest)
    (hlen : GetGlobalContextID m c < m.p_used_ram_.length) :
    AddRAMMemory m size = .ok { m with
      p_used_ram_ := m.p_used_ram_.set (GetGlobalContextID m c)
        ((m.p_used_ram_.get ⟨GetGlobalContextID m c, hlen⟩ + size) % clULongMod) } := by
  simp only [AddRAMMemory, hact, List.head?_cons]
  rw [dif_pos hlen]

/-- Unfolding of `SubRAMMemory` when a context is active and the ledger
index is in bounds. -/
theorem subRAMMemory_eq (m : OpenCLManager) (c : Ctx) (rest : List Ctx) (size : Nat)
    (hact : m.vp_contexts_act_cl_ = c :: rest)
    (hlen : GetGlobalContextID m c < m.p_used_ram_.length) :
    SubRAMMemory m size = .ok { m with
      p_used_ram_ := m.p_used_ram_.set (GetGlobalContextID m c)
        ((m.p_used_ram_.get ⟨GetGlobalContextID m c, hlen⟩ +
          (clULongMod - size % clULongMod)) % clULongMod) } := by
  simp only [SubRAMMemory, hact, List.head?_cons]
  rw [dif_pos hlen]

/-! ## C10: Deallocate wraps the unsigned ledger with no validation -/

/-- C10: `Deallocate` subtracts the caller-supplied size from the active
context's `cl_ulong` ledger cell with no validation: for a size strictly
greater than the cell's current value `v` it succeeds anyway, and the cell
wraps to `v + 2 ^ 64 - size` (the value of `v - size` modulo `2 ^ 64`). -/
theorem deallocate_unchecked_wraparound
    (m : OpenCLManager) (p_buffer size : Nat) (c : Ctx) (rest : List Ctx) (v : Nat)
    (hact : m.vp_contexts_act_cl_ = c :: rest)
    (hv : m.p_used_ram_.get? (GetGlobalContextID m c) = some v)
    (hsz : size < clULongMod) (hlt : v < size) :
    ∃ m', Deallocate m p_buffer size = .ok m' ∧
      m'.p_used_ram_.get? (GetGlobalContextID m c) = some (v + clULongMod - size) := by
  have hlen : GetGlobalContextID m c < m.p_used_ram_.length := by
    by_contra h
    rw [List.get?_eq_none.mpr (Nat.le_of_not_lt h)] at hv
    exact Option.noConfusion hv
  have hgetv : m.p_used_ram_.get ⟨GetGlobalContextID m c, hlen⟩ = v := by
    rw [List.get?_eq_get hlen] at hv
    exact Option.some.inj hv
  refine ⟨_, subRAMMemory_eq m c rest size hact hlen, ?_⟩
  rw [List.get?_set_of_lt' _ _ hlen, if_pos rfl, hgetv, Nat.mod_eq_of_lt hsz]
  rw [clULongMod_eq] at hsz ⊢
  congr 1
  omega

theorem deallocate_unchecked_wraparound_witness :
    ∃ m', Deallocate mgrAct 100 1 = .ok m' ∧
      m'.p_used_ram_.get? (GetGlobalContextID mgrAct ctxA) =
        some (0 + clULongMod - 1) :=
  deallocate_unchecked_wraparound mgrAct 100 1 ctxA [] 0 rfl rfl
    (by rw [clULongMod_eq]; omega) (by omega)

/-! ## C8: lookup of an absent context handle yields index 0 -/

/-- C8: `GetGlobalContextID` applied to a context handle whose pointer is
not in the global context list returns `0` instead of failing, and a
ledger update keyed through such a handle (the active-context slot holding
a stray handle) is therefore applied to ledger cell `0`. -/
theorem getGlobalContextID_absent_defaults_to_zero
    (m : OpenCLManager) (p : Ctx) (rest : List Ctx) (size v : Nat)
    (habs : ∀ c ∈ m.vp_contexts_cl_, c.addr ≠ p.addr)
    (hact : m.vp_contexts_act_cl_ = p :: rest)
    (hv : m.p_used_ram_.get? 0 = some v) :
    GetGlobalContextID m p = 0 ∧
      ∃ m', AddRAMMemory m size = .ok m' ∧
        m'.p_used_ram_.get? 0 = some ((v + size) % clULongMod) := by
  have hid : GetGlobalContextID m p = 0 := ctxFindLoop_eq_zero p _ habs 0
  have hlen : 0 < m.p_used_ram_.length := by
    by_contra h
    rw [List.get?_eq_none.mpr (Nat.le_of_not_lt h)] at hv
    exact Option.noConfusion hv
  have hlen' : GetGlobalContextID m p < m.p_used_ram_.length := hid ▸ hlen
  have hgetv : m.p_used_ram_.get ⟨GetGlobalContextID m p, hlen'⟩ = v := by
    have hv' := hv
    rw [← hid, List.get?_eq_get hlen'] at hv'
    exact Option.some.inj hv'
  refine ⟨hid, _, addRAMMemory_eq m p rest size hact hlen', ?_⟩
  rw [hgetv, ← hid, List.get?_set_of_lt' _ _ hlen', if_pos rfl]

/-- A stray context handle that is not in `mgrInit`'s context list. -/
def ctxStray : Ctx := ⟨999, 7⟩

/-- `mgrInit` with the stray handle sitting in the activated-context
vector. -/
def mgrStray : OpenCLManager :=
  { mgrInit with vp_contexts_act_cl_ := [ctxStray] }

theorem getGlobalContextID_absent_defaults_to_zero_witness :
    GetGlobalContextID mgrStray ctxStray = 0 ∧
      ∃ m', AddRAMMemory mgrStray 4096 = .ok m' ∧
        m'.p_used_ram_.get? 0 = some ((0 + 4096) % clULongMod) :=
  getGlobalContextID_absent_defaults_to_zero mgrStray ctxStray [] 4096 0
    (by intro c hc; simp [mgrStray, mgrInit, ctxA] at hc; simp [hc, ctxStray])
    rfl rfl

/-! ## C1: context activation is write-once -/

/-- C1 (amended): if no context is active, `ContextToActivate i` succeeds
and marks `contexts[i]` active exactly when `i` is in range, and throws
`std::out_of_range` (leaving no context active) when it is not; once any
context is active, every call, with any index, throws the ConfigurationError
`Misc::ThrowException` and leaves the activated-context vector unchanged;
every successful call starts from the empty activated-context vector and
ends with exactly one activated context, so at most one context is ever
active. -/
theorem contextToActivate_write_once (m : OpenCLManager) (i : Nat) :
    (m.vp_contexts_act_cl_ = [] → ∀ h : i < m.vp_contexts_cl_.length,
        ContextToActivate m i =
          .ok { m with vp_contexts_act_cl_ := [m.vp_contexts_cl_.get ⟨i, h⟩] }) ∧
    (m.vp_contexts_act_cl_ = [] → m.vp_contexts_cl_.length ≤ i →
        ContextToActivate m i = .thrown .atOutOfRange m) ∧
    (m.vp_contexts_act_cl_ ≠ [] →
        ContextToActivate m i =
          .thrown (.configError "A context has already been activated!!!") m) ∧
    (∀ m', ContextToActivate m i = .ok m' →
        m.vp_contexts_act_cl_ = [] ∧ m'.vp_contexts_act_cl_.length = 1) := by
  refine ⟨?_, ?_, ?_, ?_⟩
  · intro hact h
    simp [ContextToActivate, hact, List.getElem?_eq_getElem h]
  · intro hact h
    simp [ContextToActivate, hact, List.getElem?_eq_none h]
  · intro hact
    have hne : m.vp_contexts_act_cl_.isEmpty = false := by
      cases hm : m.vp_contexts_act_cl_ with
      | nil => exact absurd hm hact
      | cons a t => rfl
    simp [ContextToActivate, hne]
  · intro m' hok
    cases hm : m.vp_contexts_act_cl_ with
    | cons a t =>
      rw [ContextToActivate, hm] at hok
      simp at hok
    | nil =>
      refine ⟨rfl, ?_⟩
      rw [ContextToActivate, hm] at hok
      cases hg : m.vp_contexts_cl_.get? i with
      | none => rw [hg] at hok; simp at hok
      | some c =>
        rw [hg] at hok
        simp at hok
        rw [← hok]
        simp [hm]

/-- C1 (counterexample to the claim as stated): on a manager with one
context and nothing activated, the first `ContextToActivate` call with the
out-of-range index `1` does not succeed and does not activate anything: it
throws `std::out_of_range` from `vp_contexts_cl_.at(1)`. -/
theorem contextToActivate_first_call_counterexample :
    Outcome.isOk (ContextToActivate mgrInit 1) = false ∧
      ContextToActivate mgrInit 1 = .thrown .atOutOfRange mgrInit :=
  ⟨rfl, rfl⟩

theorem contextToActivate_write_once_witness :
    ContextToActivate mgrInit 0 = .ok mgrAct ∧
      ContextToActivate mgrAct 0 =
        .thrown (.configError "A context has already been activated!!!") mgrAct := by
  constructor
  · exact (contextToActivate_write_once mgrInit 0).1 rfl (by simp [mgrInit])
  · exact (contextToActivate_write_once mgrAct 0).2.2.1 (by simp [mgrAct])

/-! ## C2: the RAM ledger under Allocate / Deallocate -/

/-- C2 (amended): with `c` the active context, `v` the prior value of the
ledger cell the manager attributes to `c` and `n < 2 ^ 64` a byte count, a
successful `Allocate` of `n` bytes sets the cell to `(v + n) mod 2 ^ 64`
(equal to `v + n` whenever `v + n < 2 ^ 64`), and `Deallocate` of the
returned buffer with the same `n` then restores the cell to `v`. -/
theorem allocate_deallocate_ledger_roundtrip
    (m : OpenCLManager) (c : Ctx) (rest : List Ctx)
    (p_host_ptr : Option Nat) (n flags v : Nat)
    (hact : m.vp_contexts_act_cl_ = c :: rest)
    (hv : m.p_used_ram_.get? (GetGlobalContextID m c) = some v)
    (hvlt : v < clULongMod) (hn : n < clULongMod) :
    ∃ m' buf, Allocate m p_host_ptr n flags CL_SUCCESS = .ok (m', buf) ∧
      m'.p_used_ram_.get? (GetGlobalContextID m c) = some ((v + n) % clULongMod) ∧
      ∃ m'', Deallocate m' buf n = .ok m'' ∧
        m''.p_used_ram_.get? (GetGlobalContextID m c) = some v := by
  have hlen : GetGlobalContextID m c < m.p_used_ram_.length := by
    by_contra h
    rw [List.get?_eq_none.mpr (Nat.le_of_not_lt h)] at hv
    exact Option.noConfusion hv
  have hgetv : m.p_used_ram_.get ⟨GetGlobalContextID m c, hlen⟩ = v := by
    rw [List.get?_eq_get hlen] at hv
    exact Option.some.inj hv
  have hhead : m.vp_contexts_act_cl_.head? = some c := by rw [hact]; rfl
  -- the state after `new cl::Buffer`: context and ledger unchanged
  have hact1 : ({ m with next_addr := m.next_addr + 1 } :
      OpenCLManager).vp_contexts_act_cl_ = c :: rest := hact
  have hlen1 : GetGlobalContextID { m with next_addr := m.next_addr + 1 } c <
      ({ m with next_addr := m.next_addr + 1 } : OpenCLManager).p_used_ram_.length := hlen
  have hadd := addRAMMemory_eq { m with next_addr := m.next_addr + 1 } c rest n hact1 hlen1
  have hallocEx : ∃ m2, Allocate m p_host_ptr n flags CL_SUCCESS = .ok (m2, m.next_addr) ∧
      m2.vp_contexts_act_cl_ = m.vp_contexts_act_cl_ ∧
      m2.vp_contexts_cl_ = m.vp_contexts_cl_ ∧
      m2.p_used_ram_ = m.p_used_ram_.set (GetGlobalContextID m c)
        ((m.p_used_ram_.get ⟨GetGlobalContextID m c, hlen⟩ + n) % clULongMod) := by
    refine ⟨{ m with
        next_addr := m.next_addr + 1
        p_used_ram_ := m.p_used_ram_.set (GetGlobalContextID m c)
          ((m.p_used_ram_.get ⟨GetGlobalContextID m c, hlen⟩ + n) % clULongMod) },
      ?_, rfl, rfl, rfl⟩
    simp only [Allocate, hhead]
    rw [if_neg (by simp : ¬((CL_SUCCESS : Int) ≠ CL_SUCCESS))]
    rw [hadd]
    rfl
  obtain ⟨m2, halloc, hact2, hctx2, hram2⟩ := hallocEx
  have hid2 : GetGlobalContextID m2 c = GetGlobalContextID m c :=
    getGlobalContextID_congr m2 m c hctx2
  have hlen2 : GetGlobalContextID m2 c < m2.p_used_ram_.length := by
    rw [hid2, hram2, List.length_set]
    exact hlen
  have hget2 : m2.p_used_ram_.get? (GetGlobalContextID m c) =
      some ((v + n) % clULongMod) := by
    rw [hram2, List.get?_set_of_lt' _ _ hlen, if_pos rfl, hgetv]
  have hget2' : m2.p_used_ram_.get ⟨GetGlobalContextID m2 c, hlen2⟩ =
      (v + n) % clULongMod := by
    have h := hget2
    rw [← hid2, List.get?_eq_get hlen2] at h
    exact Option.some.inj h
  have hact2' : m2.vp_contexts_act_cl_ = c :: rest := by rw [hact2]; exact hact
  have hsub := subRAMMemory_eq m2 c rest n hact2' hlen2
  refine ⟨m2, m.next_addr, halloc, hget2, _, hsub, ?_⟩
  simp only []
  rw [List.get?_set_of_lt' _ _ hlen2, if_pos hid2, hget2', Nat.mod_eq_of_lt hn]
  congr 1
  rw [clULongMod_eq] at hvlt hn ⊢
  omega


theorem allocate_deallocate_ledger_roundtrip_witness :
    ∃ m' buf, Allocate mgrAct none 4096 1 CL_SUCCESS = .ok (m', buf) ∧
      m'.p_used_ram_.get? (GetGlobalContextID mgrAct ctxA) =
        some ((0 + 4096) % clULongMod) ∧
      ∃ m'', Deallocate m' buf 4096 = .ok m'' ∧
        m''.p_used_ram_.get? (GetGlobalContextID mgrAct ctxA) = some 0 :=
  allocate_deallocate_ledger_roundtrip mgrAct ctxA [] none 4096 1 0 rfl rfl
    (by rw [clULongMod_eq]; omega) (by rw [clULongMod_eq]; omega)

/-- C2 (counterexample to the claim as stated): with the active context's
ledger cell at its prior value `v = 2 ^ 64 - 1`, a successful `Allocate` of
`n = 1` byte leaves the cell at `0`, not at `v + n = 2 ^ 64`: the `cl_ulong`
increment wraps. -/
theorem allocate_ledger_sum_counterexample :
    allocLedger (Allocate mgrFull none 1 1 CL_SUCCESS) = some [0] ∧
      (0 : Nat) ≠ (clULongMod - 1) + 1 :=
  ⟨rfl, by rw [clULongMod_eq]; omega⟩

/-! ## C7: resolution of the effective compiler options -/

/-- C7 (amended): when `CompileKernel` passes the mutual-exclusion check
and the source file opens (and a context is active so `at(0)` succeeds),
then provided the resolved option string together with its NUL terminator
fits the source's fixed 512-byte option buffer, the option string handed to
the backend build is: `customOptions` when supplied; otherwise
`build_options_` + `" "` + `additionalOptions` when supplied; otherwise
`build_options_` alone — whatever the build outcome. -/
theorem compileKernel_effective_options
    (m : OpenCLManager) (fs : String → Option String)
    (kernel_filename kernel_name src : String)
    (p_custom_options p_additional_options : Option String)
    (bs : Int) (log : String) (ks : Int) (c : Ctx) (rest : List Ctx)
    (hfile : fs kernel_filename = some src)
    (hact : m.vp_contexts_act_cl_ = c :: rest)
    (hopts : (p_custom_options.isSome && p_additional_options.isSome) = false) :
    (∀ co, p_custom_options = some co → co.utf8ByteSize + 1 ≤ 512 →
      (CompileKernel m fs kernel_filename kernel_name p_custom_options
          p_additional_options CL_SUCCESS bs log ks).2 =
        [.fileOpen kernel_filename, .backendBuild co]) ∧
    (p_custom_options = none → ∀ ao, p_additional_options = some ao →
      (m.build_options_ ++ " " ++ ao).utf8ByteSize + 1 ≤ 512 →
      (CompileKernel m fs kernel_filename kernel_name p_custom_options
          p_additional_options CL_SUCCESS bs log ks).2 =
        [.fileOpen kernel_filename,
          .backendBuild (m.build_options_ ++ " " ++ ao)]) ∧
    (p_custom_options = none → p_additional_options = none →
      m.build_options_.utf8ByteSize + 1 ≤ 512 →
      (CompileKernel m fs kernel_filename kernel_name p_custom_options
          p_additional_options CL_SUCCESS bs log ks).2 =
        [.fileOpen kernel_filename, .backendBuild m.build_options_]) := by
  refine ⟨?_, ?_, ?_⟩
  · intro co hco hfit
    subst hco
    rcases p_additional_options with _ | ao
    · simp only [CompileKernel, hfile, hact, List.head?_cons]
      simp only [Option.isSome_some, Option.isSome_none, Bool.and_false, Bool.false_eq_true,
        if_false]
      rw [if_neg (show ¬(co.utf8ByteSize + 1 > 512) by omega)]
      rw [if_neg (show ¬((CL_SUCCESS : Int) ≠ CL_SUCCESS) by simp)]
      split_ifs <;> rfl
    · simp at hopts
  · intro hco ao hao hfit
    subst hco; subst hao
    simp only [CompileKernel, hfile, hact, List.head?_cons]
    simp only [Option.isSome_none, Bool.false_and, Bool.false_eq_true, if_false]
    rw [if_neg (show ¬((m.build_options_ ++ " " ++ ao).utf8ByteSize + 1 > 512) by omega)]
    rw [if_neg (show ¬((CL_SUCCESS : Int) ≠ CL_SUCCESS) by simp)]
    split_ifs <;> rfl
  · intro hco hao hfit
    subst hco; subst hao
    simp only [CompileKernel, hfile, hact, List.head?_cons]
    simp only [Option.isSome_none, Bool.false_and, Bool.false_eq_true, if_false]
    rw [if_neg (show ¬(m.build_options_.utf8ByteSize + 1 > 512) by omega)]
    rw [if_neg (show ¬((CL_SUCCESS : Int) ≠ CL_SUCCESS) by simp)]
    split_ifs <;> rfl

set_option maxRecDepth 8192 in
/-- C7 (counterexample to the claim as stated): a 512-byte custom option
string passes the mutual-exclusion and file checks, yet `CompileKernel`
does not hand it to the backend: the unchecked `strcpy` into
`char kernel_compilation_option[512]` writes 513 bytes (the terminating NUL
past the end of the array), undefined behaviour; no build effect with the
claimed effective options takes place. -/
theorem compileKernel_option_overflow_counterexample :
    CompileKernel mgrAct (fun _ => some "__kernel void k() \x7b\x7d") "k.cl" "k"
        (some longCustomOption) none 0 0 "" 0 =
      (.undefinedBehavior, [.fileOpen "k.cl"]) ∧
      Effect.backendBuild longCustomOption ∉
        (CompileKernel mgrAct (fun _ => some "__kernel void k() \x7b\x7d") "k.cl" "k"
          (some longCustomOption) none 0 0 "" 0).2 := by
  refine ⟨rfl, ?_⟩
  intro hmem
  rw [show (CompileKernel mgrAct (fun _ => some "__kernel void k() \x7b\x7d") "k.cl" "k"
      (some longCustomOption) none 0 0 "" 0).2 = [Effect.fileOpen "k.cl"] from rfl] at hmem
  simp at hmem

theorem compileKernel_effective_options_witness :
    (CompileKernel mgrAct (fun _ => some "__kernel void k() \x7b\x7d") "k.cl" "k"
        none (some "-DEXTRA") 0 0 "" 0).2 =
      [.fileOpen "k.cl",
        .backendBuild ("-cl-std=CL1.2 -cl-kernel-arg-info -w -Werror" ++ " " ++ "-DEXTRA")] :=
  (compileKernel_effective_options mgrAct (fun _ => some "__kernel void k() \x7b\x7d")
      "k.cl" "k" "__kernel void k() \x7b\x7d" none (some "-DEXTRA") 0 "" 0 ctxA []
      rfl rfl rfl).2.1 rfl "-DEXTRA" rfl (by decide)

/-! ## C3: context creation per discovered device -/

theorem countDev_nil (d : Nat) : countDev [] d = 0 := rfl

theorem countDev_append (l1 l2 : List Ctx) (d : Nat) :
    countDev (l1 ++ l2) d = countDev l1 d + countDev l2 d := by
  simp [countDev, List.countP_append]

theorem countDev_singleton (a : Ctx) (d : Nat) :
    countDev [a] d = if a.device = d then 1 else 0 := by
  by_cases h : a.device = d <;> simp [countDev, List.countP_cons, h]

/-- Effect of one loop iteration of `CreateContextCPUGPU` on the per-device
context counts of the three context lists. -/
theorem createCtxStep_countDev (m : OpenCLManager) (t i d : Nat) :
    countDev (createCtxStep m t i).vp_contexts_cl_ d =
      countDev m.vp_contexts_cl_ d +
        (if d = i ∧ (t = CL_DEVICE_TYPE_GPU ∨ t = CL_DEVICE_TYPE_CPU) then 1 else 0) ∧
    countDev (createCtxStep m t i).vp_contexts_gpu_cl_ d =
      countDev m.vp_contexts_gpu_cl_ d +
        (if d = i ∧ t = CL_DEVICE_TYPE_GPU then 1 else 0) ∧
    countDev (createCtxStep m t i).vp_contexts_cpu_cl_ d =
      countDev m.vp_contexts_cpu_cl_ d +
        (if d = i ∧ t = CL_DEVICE_TYPE_CPU then 1 else 0) := by
  have hne : CL_DEVICE_TYPE_GPU ≠ CL_DEVICE_TYPE_CPU := by decide
  by_cases hg : t = CL_DEVICE_TYPE_GPU
  · subst hg
    by_cases hd : d = i
    · subst hd
      simp [createCtxStep, hne, countDev_append, countDev_singleton]
    · simp [createCtxStep, hne, countDev_append, countDev_singleton, hd, Ne.symm hd]
  · by_cases hc : t = CL_DEVICE_TYPE_CPU
    · subst hc
      by_cases hd : d = i
      · subst hd
        simp [createCtxStep, hg, countDev_append, countDev_singleton]
      · simp [createCtxStep, hg, countDev_append, countDev_singleton, hd, Ne.symm hd]
    · simp [createCtxStep, hg, hc]

/-- The loop starting at device index `i0` never touches the counts of a
device index below `i0`. -/
theorem createCtxLoop_countDev_lt (dt : List Nat) :
    ∀ (i0 : Nat) (m : OpenCLManager) (d : Nat), d < i0 →
      countDev (createCtxLoop dt i0 m).vp_contexts_cl_ d = countDev m.vp_contexts_cl_ d ∧
      countDev (createCtxLoop dt i0 m).vp_contexts_gpu_cl_ d =
        countDev m.vp_contexts_gpu_cl_ d ∧
      countDev (createCtxLoop dt i0 m).vp_contexts_cpu_cl_ d =
        countDev m.vp_contexts_cpu_cl_ d := by
  induction dt with
  | nil => intro i0 m d _; exact ⟨rfl, rfl, rfl⟩
  | cons t rest ih =>
    intro i0 m d hd
    have hstep := createCtxStep_countDev m t i0 d
    have hdne : d ≠ i0 := Nat.ne_of_lt hd
    have hloop := ih (i0 + 1) (createCtxStep m t i0) d (Nat.lt_succ_of_lt hd)
    simp only [createCtxLoop]
    refine ⟨?_, ?_, ?_⟩
    · rw [hloop.1, hstep.1]; simp [hdne]
    · rw [hloop.2.1, hstep.2.1]; simp [hdne]
    · rw [hloop.2.2, hstep.2.2]; simp [hdne]

/-- Closed form for the per-device context counts produced by the
`CreateContextCPUGPU` loop: device `i0 + j` of recorded type `dt[j]` gains
one context in the global list exactly when its type is GPU or CPU, one in
the GPU sublist exactly when it is GPU, and one in the CPU sublist exactly
when it is CPU. -/
theorem createCtxLoop_countDev (dt : List Nat) :
    ∀ (i0 : Nat) (m : OpenCLManager) (j : Nat) (hj : j < dt.length),
      countDev (createCtxLoop dt i0 m).vp_contexts_cl_ (i0 + j) =
        countDev m.vp_contexts_cl_ (i0 + j) +
          (if dt.get ⟨j, hj⟩ = CL_DEVICE_TYPE_GPU ∨ dt.get ⟨j, hj⟩ = CL_DEVICE_TYPE_CPU
            then 1 else 0) ∧
      countDev (createCtxLoop dt i0 m).vp_contexts_gpu_cl_ (i0 + j) =
        countDev m.vp_contexts_gpu_cl_ (i0 + j) +
          (if dt.get ⟨j, hj⟩ = CL_DEVICE_TYPE_GPU then 1 else 0) ∧
      countDev (createCtxLoop dt i0 m).vp_contexts_cpu_cl_ (i0 + j) =
        countDev m.vp_contexts_cpu_cl_ (i0 + j) +
          (if dt.get ⟨j, hj⟩ = CL_DEVICE_TYPE_CPU then 1 else 0) := by
  induction dt with
  | nil => intro i0 m j hj; exact absurd hj (by simp)
  | cons t rest ih =>
    intro i0 m j hj
    simp only [createCtxLoop]
    cases j with
    | zero =>
      have hlt := createCtxLoop_countDev_lt rest (i0 + 1) (createCtxStep m t i0) (i0 + 0)
        (by omega)
      have hstep := createCtxStep_countDev m t i0 (i0 + 0)
      refine ⟨?_, ?_, ?_⟩
      · rw [hlt.1, hstep.1]; simp
      · rw [hlt.2.1, hstep.2.1]; simp
      · rw [hlt.2.2, hstep.2.2]; simp
    | succ j' =>
      have hj' : j' < rest.length := Nat.lt_of_succ_lt_succ hj
      have hih := ih (i0 + 1) (createCtxStep m t i0) j' hj'
      have hstep := createCtxStep_countDev m t i0 (i0 + (j' + 1))
      have hdne : i0 + (j' + 1) ≠ i0 := by omega
      have harith : i0 + 1 + j' = i0 + (j' + 1) := by omega
      rw [harith] at hih
      refine ⟨?_, ?_, ?_⟩
      · rw [hih.1, hstep.1]; simp [hdne]
      · rw [hih.2.1, hstep.2.1]; simp [hdne]
      · rw [hih.2.2, hstep.2.2]; simp [hdne]

/-- C3 (amended): starting from the discovery-time state (all three context
lists empty), `CreateContextCPUGPU` gives every discovered device whose
recorded type is GPU exactly one context in the global list, which sits in
the GPU subset and not in the CPU subset; symmetrically for CPU devices;
and a discovered device of any other recorded type gets no context at
all. -/
theorem createContexts_partition_cpu_gpu
    (m : OpenCLManager) (i : Nat) (hi : i < m.p_device_device_type_.length)
    (hc : m.vp_contexts_cl_ = []) (hcpu : m.vp_contexts_cpu_cl_ = [])
    (hgpu : m.vp_contexts_gpu_cl_ = []) :
    (m.p_device_device_type_.get ⟨i, hi⟩ = CL_DEVICE_TYPE_GPU →
      countDev (CreateContextCPUGPU m).vp_contexts_cl_ i = 1 ∧
      countDev (CreateContextCPUGPU m).vp_contexts_gpu_cl_ i = 1 ∧
      countDev (CreateContextCPUGPU m).vp_contexts_cpu_cl_ i = 0) ∧
    (m.p_device_device_type_.get ⟨i, hi⟩ = CL_DEVICE_TYPE_CPU →
      countDev (CreateContextCPUGPU m).vp_contexts_cl_ i = 1 ∧
      countDev (CreateContextCPUGPU m).vp_contexts_cpu_cl_ i = 1 ∧
      countDev (CreateContextCPUGPU m).vp_contexts_gpu_cl_ i = 0) ∧
    (m.p_device_device_type_.get ⟨i, hi⟩ ≠ CL_DEVICE_TYPE_GPU →
      m.p_device_device_type_.get ⟨i, hi⟩ ≠ CL_DEVICE_TYPE_CPU →
      countDev (CreateContextCPUGPU m).vp_contexts_cl_ i = 0 ∧
      countDev (CreateContextCPUGPU m).vp_contexts_gpu_cl_ i = 0 ∧
      countDev (CreateContextCPUGPU m).vp_contexts_cpu_cl_ i = 0) := by
  obtain ⟨h1, h2, h3⟩ := createCtxLoop_countDev m.p_device_device_type_ 0 m i hi
  simp only [Nat.zero_add] at h1 h2 h3
  rw [hc, countDev_nil, Nat.zero_add] at h1
  rw [hgpu, countDev_nil, Nat.zero_add] at h2
  rw [hcpu, countDev_nil, Nat.zero_add] at h3
  simp only [CreateContextCPUGPU]
  refine ⟨?_, ?_, ?_⟩
  · intro ht
    rw [h1, h2, h3, ht]
    decide
  · intro ht
    rw [h1, h2, h3, ht]
    decide
  · intro htg htc
    rw [h1, h2, h3, if_neg (not_or.mpr ⟨htg, htc⟩), if_neg htg, if_neg htc]
    exact ⟨rfl, rfl, rfl⟩

/-- C3 (counterexample to the claim as stated): a discovered device of the
accelerator type — returned by the `CL_DEVICE_TYPE_ALL` discovery — gets no
context at all: after context creation, no context references device `0`,
although device `0` was discovered. -/
theorem createContexts_accelerator_counterexample :
    mgrAccelDiscovery.p_device_device_type_.length = 1 ∧
      countDev (CreateContextCPUGPU mgrAccelDiscovery).vp_contexts_cl_ 0 = 0 :=
  ⟨rfl, rfl⟩

theorem createContexts_partition_cpu_gpu_witness :
    countDev (CreateContextCPUGPU mgrTwoDevDiscovery).vp_contexts_cl_ 0 = 1 ∧
      countDev (CreateContextCPUGPU mgrTwoDevDiscovery).vp_contexts_gpu_cl_ 0 = 1 ∧
      countDev (CreateContextCPUGPU mgrTwoDevDiscovery).vp_contexts_cpu_cl_ 0 = 0 :=
  (createContexts_partition_cpu_gpu mgrTwoDevDiscovery 0 (by simp [mgrTwoDevDiscovery])
    rfl rfl rfl).1 rfl

end GGEMS
